import Mathlib

/-!
Shallow embedding of `couplingutils.py` (QMMM_tools): excitation-energy
transfer coupling formulas between two chromophores.  Machine floats are
idealised as real numbers; calls into the external pyscf / MDAnalysis
libraries are abstracted as oracle structures (`JKEngine`, `DFTEngine`,
`Universe`) whose fields stand for the opaque library computations; Python
exceptions (failed `assert`, `IndexError`, attribute access on `None`)
are modelled with `Option`; file-system side effects are modelled by an
explicit effect trace (`FileEffect`).
-/

noncomputable section

namespace CouplingUtils

/-- A 3-component numpy vector of reals. -/
abbrev Vec3 : Type := ℝ × ℝ × ℝ

/-- Componentwise dot product, `np.dot` on length-3 arrays. -/
def dot3 (a b : Vec3) : ℝ := a.1 * b.1 + a.2.1 * b.2.1 + a.2.2 * b.2.2

/-- Euclidean norm, `np.linalg.norm` on length-3 arrays. -/
def norm3 (a : Vec3) : ℝ := Real.sqrt (dot3 a a)

/-- Componentwise subtraction of 3-vectors. -/
def sub3 (a b : Vec3) : Vec3 := (a.1 - b.1, a.2.1 - b.2.1, a.2.2 - b.2.2)

/-- Scalar multiplication of a 3-vector, numpy `c * v` (and in-place `v *= c`). -/
def smul3 (c : ℝ) (a : Vec3) : Vec3 := (c * a.1, c * a.2.1, c * a.2.2)

/-- Broadcast addition of a scalar to a 3-vector, numpy `v + c`. -/
def addc3 (a : Vec3) (c : ℝ) : Vec3 := (a.1 + c, a.2.1 + c, a.2.2 + c)

/-- The part of a PySCF molecule object that the coupling formulas read:
its number of atomic orbitals `mol.nao` and its atom coordinates
`mol.atom_coords()`. -/
structure Mol where
  nao : ℕ
  atom_coords : List Vec3

/-- A 2-D numpy array: a shape together with its entries (entries outside
the shape are irrelevant).  Used for transition density matrices. -/
structure NArr2 where
  rows : ℕ
  cols : ℕ
  entry : ℕ → ℕ → ℝ

/-- Oracle for the pyscf low-level integral machinery used by
`jk_ints_eff`: `cJ_of` stands for the value
`np.einsum('ia,ia->', vJ, tdmA)` of the Coulomb branch and `cK_of` for
`np.einsum('ia,ia->', vK, tdmA)` of the exchange branch, both functions of
the two molecules and the two transition density matrices. -/
structure JKEngine where
  cJ_of : Mol → Mol → NArr2 → NArr2 → ℝ
  cK_of : Mol → Mol → NArr2 → NArr2 → ℝ

/-- `jk_ints_eff(molA, molB, tdmA, tdmB, calcK)`: asserts
`tdmA.shape == (naoA, naoA)` and `tdmB.shape == (naoB, naoB)` (a failed
Python `assert` is `none`), computes the Coulomb coupling `cJ`, and
returns `(cJ, cK)` when `calcK` is true and `(cJ, 0)` otherwise. -/
def jk_ints_eff (eng : JKEngine) (molA molB : Mol) (tdmA tdmB : NArr2)
    (calcK : Bool) : Option (ℝ × ℝ) :=
  if (tdmA.rows, tdmA.cols) = (molA.nao, molA.nao) then
    if (tdmB.rows, tdmB.cols) = (molB.nao, molB.nao) then
      let cJ := eng.cJ_of molA molB tdmA tdmB
      if calcK then
        let cK := eng.cK_of molA molB tdmA tdmB
        some (cJ, cK)
      else
        some (cJ, 0)
    else none
  else none

/-- `V_Coulomb(molA, molB, tdmA, tdmB, calcK)`: calls
`jk_ints_eff(..., calcK=False)` (the `calcK` parameter of `V_Coulomb`
itself is never used) and returns `2*cJ - cK`. -/
def V_Coulomb (eng : JKEngine) (molA molB : Mol) (tdmA tdmB : NArr2)
    (calcK : Bool) : Option ℝ :=
  (jk_ints_eff eng molA molB tdmA tdmB false).map (fun p => 2 * p.1 - p.2)

/-- Numpy `np.outer(a, b)` for 1-D inputs. -/
def np_outer (a b : List ℝ) : List (List ℝ) := a.map (fun x => b.map (fun y => x * y))

/-- Scipy `cdist(xs, ys)`: the matrix of pairwise Euclidean distances. -/
def cdist (xs ys : List Vec3) : List (List ℝ) :=
  xs.map (fun x => ys.map (fun y => norm3 (sub3 x y)))

/-- Numpy `np.sum` over a 2-D array. -/
def np_sum2 (m : List (List ℝ)) : ℝ := (m.map List.sum).sum

/-- `V_multipole(molA, molB, chrgA, chrgB)`: transition monopole coupling,
`np.sum(np.outer(chrgA, chrgB) / cdist(molA.atom_coords(), molB.atom_coords()))`. -/
def V_multipole (molA molB : Mol) (chrgA chrgB : List ℝ) : ℝ :=
  let mol_dist := cdist molA.atom_coords molB.atom_coords
  np_sum2 (List.zipWith (List.zipWith (fun a b => a / b)) (np_outer chrgA chrgB) mol_dist)

/-- `V_pdipole(tdA, tdB, rAB)`: point dipole coupling.  The component
`rAB *= 1.8897259886` is an in-place numpy update, so the model returns,
besides the value `Vij`, the post-call contents of the three array
arguments `(tdA, tdB, rAB)`. -/
def V_pdipole (tdA tdB rAB : Vec3) : ℝ × Vec3 × Vec3 × Vec3 :=
  let const : ℝ := 1
  let rAB2 := smul3 1.8897259886 rAB
  let miuAnorm := |norm3 tdA|
  let miuBnorm := |norm3 tdB|
  let RABnorm := norm3 rAB2
  let num := dot3 tdA tdB - 3 * dot3 tdA rAB2 * dot3 tdB rAB2
  let Vij := (miuAnorm * miuBnorm / const) * num / RABnorm ^ 3
  (Vij, tdA, tdB, rAB2)

/-- The part of a PySCF mean-field object read by `V_CT` and
`transfer_sym`: the parallel arrays `mo_energy` and `mo_occ`. -/
structure MFdata where
  mo_energy : List ℝ
  mo_occ : List ℝ

/-- Boolean-mask selection `mf.mo_energy[mf.mo_occ == 0]`: the energies of
the virtual orbitals, in order. -/
def mo_virtuals (mf : MFdata) : List ℝ :=
  (mf.mo_energy.zip mf.mo_occ).filterMap (fun p => if p.2 = 0 then some p.1 else none)

/-- Boolean-mask selection `mf.mo_energy[mf.mo_occ != 0]`: the energies of
the occupied orbitals, in order. -/
def mo_occupied (mf : MFdata) : List ℝ :=
  (mf.mo_energy.zip mf.mo_occ).filterMap (fun p => if p.2 ≠ 0 then some p.1 else none)

/-- `V_CT(te, th, rab, mfAB, Egap)`: charge-transfer coupling.  `none`
models the Python exceptions: accessing `mfAB.mo_energy` when `mfAB` is
`None`, and the `IndexError` of `[0]` / `[-1]` on an empty selection.
On success it returns the triple `(-2*te*th/domega, domega, |rab|)`. -/
def V_CT (te th : ℝ) (rab : Vec3) (mfAB : Option MFdata) (Egap : Option ℝ) :
    Option (ℝ × ℝ × ℝ) :=
  let RAB := norm3 rab * 1.8897259886
  let Uval : Option ℝ :=
    match Egap with
    | none => some (0.7 * 0.0367493)
    | some Eopt =>
      match mfAB with
      | none => none
      | some mf =>
        match (mo_virtuals mf).head?, (mo_occupied mf).getLast? with
        | some EL, some EH => some ((EL - EH) - Eopt)
        | _, _ => none
  Uval.map (fun U =>
    let perm : ℝ := 1
    let er : ℝ := 77.16600
    let elect : ℝ := 1
    let V := elect ^ 2 / (perm * er * RAB)
    let domega := U - V
    (-2 * te * th / domega, domega, norm3 rab))

/-- `transfer_sym(mf)`: transfer integrals of a symmetric dimer,
`te = (E_LUMO - E_LUMO+1)/2` and `th = (E_HOMO - E_HOMO-1)/2`; `none`
models the `IndexError` when fewer than two occupied or two virtual
orbitals exist. -/
def transfer_sym (mf : MFdata) : Option (ℝ × ℝ) :=
  let E_v := mo_virtuals mf
  let E_o := mo_occupied mf
  match E_o.reverse.head?, E_o.reverse.tail.head?, E_v.head?, E_v.tail.head? with
  | some EH, some EHm1, some EL, some ELp1 =>
    let th := (EH - EHm1) / 2
    let te := (EL - ELp1) / 2
    some (te, th)
  | _, _, _, _ => none

/-- The part of the molecule object returned by `gto.M` that `do_dft`
touches: an opaque payload plus the mutable `verbose` attribute. -/
structure PMol where
  verbose : Int
  payload : ℕ

/-- Opaque `scf.RKS` object. -/
structure SCFObj where
  payload : ℕ

/-- Result of a converged mean-field run: MO coefficient columns paired
with their occupations. -/
structure MFRun where
  mo_coeff : List (List ℝ)
  mo_occ : List ℝ

/-- Oracle for the pyscf driver calls made by `do_dft`: `gtoM` stands for
`gto.M(atom, basis, charge, spin)`, `RKS` for `scf.RKS(mol)`, and
`ddCOSMO_run` for setting `mf.xc` and running `solvent.ddCOSMO(mf).run()`. -/
structure DFTEngine where
  gtoM : String → String → Int → Int → PMol
  RKS : PMol → SCFObj
  ddCOSMO_run : SCFObj → String → MFRun

/-- Python slice `coord[1:-1]` on the coordinate string. -/
def pySlice1m1 (s : String) : String := (s.drop 1).dropRight 1

/-- Column selection `mo[:, mf.mo_occ != 0]`. -/
def occ_columns (mo : List (List ℝ)) (occ : List ℝ) : List (List ℝ) :=
  (mo.zip occ).filterMap (fun p => if p.2 ≠ 0 then some p.1 else none)

/-- Column selection `mo[:, mf.mo_occ == 0]`. -/
def virt_columns (mo : List (List ℝ)) (occ : List ℝ) : List (List ℝ) :=
  (mo.zip occ).filterMap (fun p => if p.2 = 0 then some p.1 else none)

/-- `do_dft(coord, basis, xc_f, mol_ch, spin, verb)`: builds the molecule
with `gto.M(atom=coord[1:-1], basis=basis, charge=mol_ch, spin=0)` (the
`spin` parameter is ignored; the literal `0` is passed), sets
`mol.verbose = verb`, runs RKS with ddCOSMO, and returns
`(mol, mf, occ, virt)`. -/
def do_dft (eng : DFTEngine) (coord basis xc_f : String) (mol_ch spin verb : Int) :
    PMol × MFRun × List (List ℝ) × List (List ℝ) :=
  let mol0 := eng.gtoM (pySlice1m1 coord) basis mol_ch 0
  let mol := PMol.mk verb mol0.payload
  let mf := eng.ddCOSMO_run (eng.RKS mol) xc_f
  let mo := mf.mo_coeff
  let occ := occ_columns mo mf.mo_occ
  let virt := virt_columns mo mf.mo_occ
  (mol, mf, occ, virt)

/-- One file-system side effect: `np.savetxt(path, ...)` or opening
`path` for reading. -/
inductive FileEffect where
  | savetxt (path : String)
  | openRead (path : String)
deriving DecidableEq

/-- The apostrophe character, used in the atom-name rewrites of
`coord_save`. -/
def apos : String := String.mk [Char.ofNat 39]

/-- `coord_save(resN, xyz, names)` (closure of `Process_MD` over
`coord_path` and `frameN`): formats one line per atom name (`a2s` is an
oracle for `np.array2string(xyz[i], precision=6, separator="i")`), writes
the rows to `coord_path + str(int(resN)) + str(int(frameN)) + '.csv'` with
`np.savetxt(..., delimiter=';')`, reads that file back with `csv.reader`
(whose default delimiter is a comma, so each line is split on commas;
`rowToString` is an oracle for `np.array2string(np.array(row), ...)`),
and returns the reformatted string together with the file-effect trace. -/
def coord_save (a2s : Vec3 → String) (rowToString : List String → String)
    (coord_path : String) (frameN resN : Int)
    (xyz : List Vec3) (names : List String) : String × List FileEffect :=
  let text : List String := (List.range names.length).map (fun i =>
    let base := names.getD i "" ++ " " ++
      (((a2s (xyz.getD i (0, 0, 0))).replace "[" "").replace "]" "")
    ((((base.replace ("O5" ++ apos) "O5*").replace ("O3" ++ apos) "O3*").replace
      "OP1" "O^1").replace "OP2" "O^2"))
  let path := coord_path ++ toString resN ++ toString frameN ++ ".csv"
  let fileContent := String.intercalate ";" text
  let row := fileContent.splitOn ","
  let xyz_i := (((rowToString row).replace "i" ",").replace "]" "").replace "[" ""
  (xyz_i, [FileEffect.savetxt path, FileEffect.openRead path])

/-- The part of an MDAnalysis atom group that `Process_MD` reads. -/
structure AtomGroup where
  resids : List Int
  positions : List Vec3
  names : List String
  centerOfMass : Vec3

/-- The part of an MDAnalysis universe that `Process_MD` reads: the
current trajectory frame and the `select_atoms` query oracle. -/
structure Universe where
  trajectoryFrame : Int
  selectAtoms : String → AtomGroup

/-- Numpy `np.delete(l, idxs, 0)`: drop the elements at the listed
indices. -/
def removeIdxs {α : Type} (l : List α) (idxs : List ℕ) : List α :=
  ((List.range l.length).zip l).filterMap
    (fun p => if idxs.contains p.1 then none else some p.2)

/-- `add_H(xyz, names, sel)` (closure of `Process_MD` over `u`): deletes
the `OP1`, `OP2` and `P` atoms (`none` models the `IndexError` of
`np.nonzero(names == x)[0][0]` when a name is absent), caps with the
`O3*` / `O5*` selections shifted by `+0.6`, and appends two `H` names. -/
def add_H (u : Universe) (sel : String) (xyz : List Vec3) (names : List String) :
    Option (List String × List Vec3) :=
  match names.findIdx? (fun s => s == "OP1"), names.findIdx? (fun s => s == "OP2"),
      names.findIdx? (fun s => s == "P") with
  | some op1, some op2, some p =>
    let xyz_new := removeIdxs xyz [op1, op2, p]
    let names_new := removeIdxs names [op1, op2, p]
    let O3 := u.selectAtoms ("resid " ++ sel ++ " and name O3*")
    let O5 := u.selectAtoms ("resid " ++ sel ++ " and name O5*")
    let O3_coord := O3.positions.map (fun v => addc3 v 0.6)
    let O5_coord := O5.positions.map (fun v => addc3 v 0.6)
    let xyz_add := (xyz_new ++ O3_coord) ++ O5_coord
    let names_add := names_new ++ ["H", "H"]
    some (names_add, xyz_add)
  | _, _, _ => none

/-- `Process_MD(u, sel_1, sel_2, coord_path)`: extracts the two monomers
from the trajectory, caps them with hydrogens, saves each monomer's
coordinates to a CSV file via `coord_save`, and returns
`(coordA, coordB, Rab)` together with the concatenated file-effect trace. -/
def Process_MD (a2s : Vec3 → String) (rowToString : List String → String)
    (u : Universe) (sel_1 sel_2 : String) (coord_path : String) :
    Option ((String × String × Vec3) × List FileEffect) :=
  let frameN := u.trajectoryFrame
  let agA := u.selectAtoms ("resid " ++ sel_1)
  let agB := u.selectAtoms ("resid " ++ sel_2)
  match agA.resids.head?, agB.resids.head? with
  | some resA, some resB =>
    let CofMA := agA.centerOfMass
    let CofMB := agB.centerOfMass
    match add_H u sel_1 agA.positions agA.names, add_H u sel_2 agB.positions agB.names with
    | some pA, some pB =>
      let rA := coord_save a2s rowToString coord_path frameN resA pA.2 pA.1
      let rB := coord_save a2s rowToString coord_path frameN resB pB.2 pB.1
      let Rab := sub3 CofMA CofMB
      some ((rA.1, rB.1, Rab), rA.2 ++ rB.2)
    | _, _ => none
  | _, _ => none

/-- First component of a `V_CT` result (default 0 when absent). -/
def firstOf (o : Option (ℝ × ℝ × ℝ)) : ℝ := (o.map (fun p => p.1)).getD 0

/-- Second component of a `V_CT` result (default 0 when absent). -/
def secondOf (o : Option (ℝ × ℝ × ℝ)) : ℝ := (o.map (fun p => p.2.1)).getD 0

/-- Third component of a `V_CT` result (default 0 when absent). -/
def thirdOf (o : Option (ℝ × ℝ × ℝ)) : ℝ := (o.map (fun p => p.2.2)).getD 0

/-- Effect trace of a `Process_MD` result (empty when the call raised). -/
def effectsOf (o : Option ((String × String × Vec3) × List FileEffect)) :
    List FileEffect := (o.map (fun r => r.2)).getD []

/-- Concrete mean-field data used in witnesses: energies `[-0.3, 0.1]`
with occupations `[2, 0]`. -/
def mfW : MFdata := MFdata.mk [-0.3, 0.1] [2, 0]

/-- Concrete one-atom molecule at the origin. -/
def molU : Mol := Mol.mk 1 [((0 : ℝ), (0 : ℝ), (0 : ℝ))]

/-- Concrete one-atom molecule at `(1, 0, 0)`. -/
def molV : Mol := Mol.mk 1 [((1 : ℝ), (0 : ℝ), (0 : ℝ))]

/-- Concrete atom group used in the `Process_MD` instances: one residue
id `5`, three atoms named `OP1`, `OP2`, `P`. -/
def agC : AtomGroup :=
  AtomGroup.mk [5] [((0:ℝ),(0:ℝ),(0:ℝ)), ((1:ℝ),(0:ℝ),(0:ℝ)), ((2:ℝ),(0:ℝ),(0:ℝ))]
    ["OP1", "OP2", "P"] ((0:ℝ),(0:ℝ),(0:ℝ))

/-- Concrete universe at frame 0 whose every selection is `agC`. -/
def uC : Universe := Universe.mk 0 (fun _ => agC)

lemma norm3_nonneg (v : Vec3) : 0 ≤ norm3 v := Real.sqrt_nonneg _

/-- C1: for every pair of molecules, every pair of transition density
matrices and both values of its `calcK` argument, `V_Coulomb` returns the
same value, namely `2*cJ` where `jk_ints_eff(..., calcK=False)` returns
`(cJ, 0)`: the exchange term subtracted in `2*cJ - cK` is always 0
because `jk_ints_eff` is invoked with `calcK` hard-coded to `False`. -/
theorem V_Coulomb_ignores_calcK (eng : JKEngine) (molA molB : Mol)
    (tdmA tdmB : NArr2) (calcK calcK' : Bool) :
    V_Coulomb eng molA molB tdmA tdmB calcK = V_Coulomb eng molA molB tdmA tdmB calcK' ∧
    V_Coulomb eng molA molB tdmA tdmB calcK =
      (jk_ints_eff eng molA molB tdmA tdmB false).map (fun p => 2 * p.1) ∧
    (jk_ints_eff eng molA molB tdmA tdmB false).map (fun p => p.2) =
      (jk_ints_eff eng molA molB tdmA tdmB false).map (fun p => (0 : ℝ)) := by
  refine ⟨rfl, ?_, ?_⟩
  · simp only [V_Coulomb, jk_ints_eff]
    split
    · split
      · simp
      · rfl
    · rfl
  · simp only [jk_ints_eff]
    split
    · split
      · simp
      · rfl
    · rfl

/-- C5: `jk_ints_eff` succeeds exactly when `tdmA` has shape
`(naoA, naoA)` and `tdmB` has shape `(naoB, naoB)`; under that shape
precondition the assertion branch is unreachable. -/
theorem jk_ints_eff_shape_assert (eng : JKEngine) (molA molB : Mol)
    (tdmA tdmB : NArr2) (calcK : Bool) :
    (jk_ints_eff eng molA molB tdmA tdmB calcK).isSome ↔
      (tdmA.rows = molA.nao ∧ tdmA.cols = molA.nao ∧
       tdmB.rows = molB.nao ∧ tdmB.cols = molB.nao) := by
  simp only [jk_ints_eff]
  split
  next h1 =>
    split
    next h2 =>
      simp only [Prod.mk.injEq] at h1 h2
      cases calcK <;> simp [h1.1, h1.2, h2.1, h2.2]
    next h2 =>
      simp only [Prod.mk.injEq] at h2
      simp only [Option.isSome_none, Bool.false_eq_true, false_iff]
      intro hc
      exact h2 ⟨hc.2.2.1, hc.2.2.2⟩
  next h1 =>
    simp only [Prod.mk.injEq] at h1
    simp only [Option.isSome_none, Bool.false_eq_true, false_iff]
    intro hc
    exact h1 ⟨hc.1, hc.2.1⟩

/-- C9: `V_pdipole` mutates its `rAB` argument in place: after the call
the caller's `rAB` holds `1.8897259886` times its previous value, while
`tdA` and `tdB` are left unchanged. -/
theorem V_pdipole_mutates_rAB (tdA tdB rAB : Vec3) :
    (V_pdipole tdA tdB rAB).2.1 = tdA ∧
    (V_pdipole tdA tdB rAB).2.2.1 = tdB ∧
    (V_pdipole tdA tdB rAB).2.2.2 = smul3 1.8897259886 rAB :=
  ⟨rfl, rfl, rfl⟩

/-- C10: `do_dft` is independent of its `spin` argument: the molecule is
always constructed with `spin=0` regardless of the parameter. -/
theorem do_dft_spin_independent (eng : DFTEngine) (coord basis xc_f : String)
    (mol_ch s1 s2 verb : Int) :
    do_dft eng coord basis xc_f mol_ch s1 verb =
      do_dft eng coord basis xc_f mol_ch s2 verb :=
  rfl

/-- C4: for nonzero `rAB` (given in Angstrom), `V_pdipole` returns
`|tdA| * |tdB| * (tdA·tdB - 3*(tdA·r)*(tdB·r)) / |r|^3` with
`r = 1.8897259886 * rAB` the distance vector converted to atomic units. -/
theorem V_pdipole_formula (tdA tdB rAB : Vec3)
    (h : rAB ≠ ((0 : ℝ), (0 : ℝ), (0 : ℝ))) :
    (V_pdipole tdA tdB rAB).1 =
      norm3 tdA * norm3 tdB *
        (dot3 tdA tdB -
          3 * dot3 tdA (smul3 1.8897259886 rAB) * dot3 tdB (smul3 1.8897259886 rAB)) /
        norm3 (smul3 1.8897259886 rAB) ^ 3 := by
  simp only [V_pdipole]
  rw [abs_of_nonneg (norm3_nonneg tdA), abs_of_nonneg (norm3_nonneg tdB), div_one]

/-- Witness for C4 at `tdA = (1,0,0)`, `tdB = (0,1,0)`, `rAB = (1,0,0)`. -/
theorem V_pdipole_formula_witness :
    ((((1 : ℝ), (0 : ℝ), (0 : ℝ)) : Vec3) ≠ ((0 : ℝ), (0 : ℝ), (0 : ℝ))) ∧
    (V_pdipole ((1:ℝ),(0:ℝ),(0:ℝ)) ((0:ℝ),(1:ℝ),(0:ℝ)) ((1:ℝ),(0:ℝ),(0:ℝ))).1 =
      norm3 ((1:ℝ),(0:ℝ),(0:ℝ)) * norm3 ((0:ℝ),(1:ℝ),(0:ℝ)) *
        (dot3 ((1:ℝ),(0:ℝ),(0:ℝ)) ((0:ℝ),(1:ℝ),(0:ℝ)) -
          3 * dot3 ((1:ℝ),(0:ℝ),(0:ℝ)) (smul3 1.8897259886 ((1:ℝ),(0:ℝ),(0:ℝ))) *
            dot3 ((0:ℝ),(1:ℝ),(0:ℝ)) (smul3 1.8897259886 ((1:ℝ),(0:ℝ),(0:ℝ)))) /
        norm3 (smul3 1.8897259886 ((1:ℝ),(0:ℝ),(0:ℝ))) ^ 3 :=
  ⟨by norm_num, V_pdipole_formula _ _ _ (by norm_num)⟩

/-- C3: `V_CT(te, th, rab, mfAB, Egap)` returns as its first component
`-2*te*th/(U - V)` with `V = 1/(77.16600 * R)`, `R = |rab| * 1.8897259886`;
when `Egap` is given, `U = (E_LUMO - E_HOMO) - Egap` from `mfAB`'s orbital
energies; when `Egap` is `None`, `U` is the constant `0.7*0.0367493` and
`mfAB` is never accessed (the call succeeds even with `mfAB = None`). -/
theorem V_CT_formula (te th : ℝ) (rab : Vec3) (mf : MFdata) (Eopt EL EH : ℝ)
    (hEL : (mo_virtuals mf).head? = some EL)
    (hEH : (mo_occupied mf).getLast? = some EH) :
    (∀ mfOpt : Option MFdata,
      (V_CT te th rab mfOpt none).map (fun p => p.1) =
        some (-2 * te * th /
          (0.7 * 0.0367493 - 1 / (77.16600 * (norm3 rab * 1.8897259886))))) ∧
    (V_CT te th rab (some mf) (some Eopt)).map (fun p => p.1) =
      some (-2 * te * th /
        (((EL - EH) - Eopt) - 1 / (77.16600 * (norm3 rab * 1.8897259886)))) := by
  constructor
  · intro mfOpt
    simp only [V_CT, Option.map_some']
    norm_num
  · simp only [V_CT, hEL, hEH, Option.map_some']
    norm_num

/-- Witness for C3 at `te = th = 1`, `rab = (1,0,0)`, `mfAB = mfW`,
`Egap = 0.2`, with `E_LUMO = 0.1` and `E_HOMO = -0.3`. -/
theorem V_CT_formula_witness :
    ((mo_virtuals mfW).head? = some 0.1) ∧
    ((mo_occupied mfW).getLast? = some (-0.3)) ∧
    ((∀ mfOpt : Option MFdata,
      (V_CT 1 1 ((1:ℝ),(0:ℝ),(0:ℝ)) mfOpt none).map (fun p => p.1) =
        some (-2 * 1 * 1 /
          (0.7 * 0.0367493 - 1 / (77.16600 * (norm3 ((1:ℝ),(0:ℝ),(0:ℝ)) * 1.8897259886))))) ∧
    (V_CT 1 1 ((1:ℝ),(0:ℝ),(0:ℝ)) (some mfW) (some 0.2)).map (fun p => p.1) =
      some (-2 * 1 * 1 /
        (((0.1 - (-0.3)) - 0.2) -
          1 / (77.16600 * (norm3 ((1:ℝ),(0:ℝ),(0:ℝ)) * 1.8897259886))))) :=
  ⟨by norm_num [mo_virtuals, mfW, List.zip_cons_cons, List.filterMap_cons],
   by norm_num [mo_occupied, mfW, List.zip_cons_cons, List.filterMap_cons],
   V_CT_formula 1 1 ((1:ℝ),(0:ℝ),(0:ℝ)) mfW 0.2 0.1 (-0.3)
     (by norm_num [mo_virtuals, mfW, List.zip_cons_cons, List.filterMap_cons])
     (by norm_num [mo_occupied, mfW, List.zip_cons_cons, List.filterMap_cons])⟩

/-- C6 counterexample: at `rab = (1,0,0)` (Angstrom), the third component
of the `V_CT` result equals `|rab| = 1`, the distance in the caller's
units, and differs from the atomic-unit distance `1.8897259886 * |rab|`;
so not every tuple component is expressed in atomic units. -/
theorem V_CT_third_component_not_au :
    thirdOf (V_CT 0 0 ((1:ℝ),(0:ℝ),(0:ℝ)) none none) = norm3 ((1:ℝ),(0:ℝ),(0:ℝ)) ∧
    norm3 ((1:ℝ),(0:ℝ),(0:ℝ)) = 1 ∧
    thirdOf (V_CT 0 0 ((1:ℝ),(0:ℝ),(0:ℝ)) none none) ≠
      1.8897259886 * norm3 ((1:ℝ),(0:ℝ),(0:ℝ)) := by
  have h1 : norm3 ((1:ℝ),(0:ℝ),(0:ℝ)) = 1 := by
    simp only [norm3, dot3]
    norm_num [Real.sqrt_one]
  refine ⟨rfl, h1, ?_⟩
  rw [show thirdOf (V_CT 0 0 ((1:ℝ),(0:ℝ),(0:ℝ)) none none) =
      norm3 ((1:ℝ),(0:ℝ),(0:ℝ)) from rfl, h1]
  norm_num

/-- C6 (amended): every successful `V_CT` call returns a triple of
scalars in which the first component is the CT coupling
`-2*te*th/domega`, the second is `domega`, and the third is `|rab|` in
the caller's input units (Angstrom), unconverted. -/
theorem V_CT_tuple_components (te th : ℝ) (rab : Vec3) (mfo : Option MFdata)
    (go : Option ℝ) (h : (V_CT te th rab mfo go).isSome) :
    thirdOf (V_CT te th rab mfo go) = norm3 rab ∧
    firstOf (V_CT te th rab mfo go) =
      -2 * te * th / secondOf (V_CT te th rab mfo go) := by
  cases go with
  | none => exact ⟨rfl, rfl⟩
  | some Eopt =>
    cases mfo with
    | none => simp [V_CT] at h
    | some mf =>
      cases hv : (mo_virtuals mf).head? with
      | none =>
        cases hh : (mo_occupied mf).getLast? <;>
          simp [V_CT, hv, hh] at h
      | some EL =>
        cases hh : (mo_occupied mf).getLast? with
        | none => simp [V_CT, hv, hh] at h
        | some EH =>
          simp only [thirdOf, firstOf, secondOf, V_CT, hv, hh, Option.map_some',
            Option.getD_some]
          exact ⟨trivial, trivial⟩

/-- Witness for the amended C6 at `te = th = 0`, `rab = (1,0,0)`,
`mfAB = None`, `Egap = None`. -/
theorem V_CT_tuple_components_witness :
    (V_CT 0 0 ((1:ℝ),(0:ℝ),(0:ℝ)) none none).isSome ∧
    (thirdOf (V_CT 0 0 ((1:ℝ),(0:ℝ),(0:ℝ)) none none) = norm3 ((1:ℝ),(0:ℝ),(0:ℝ)) ∧
     firstOf (V_CT 0 0 ((1:ℝ),(0:ℝ),(0:ℝ)) none none) =
       -2 * 0 * 0 / secondOf (V_CT 0 0 ((1:ℝ),(0:ℝ),(0:ℝ)) none none)) :=
  ⟨rfl, V_CT_tuple_components 0 0 ((1:ℝ),(0:ℝ),(0:ℝ)) none none rfl⟩

/-- C8: the closed-form coupling formulas `V_multipole`, `V_pdipole`,
`V_CT` and `transfer_sym` are deterministic: equal argument values give
equal results, with no hidden state between calls. -/
theorem closed_forms_deterministic :
    (∀ x y : Mol × Mol × List ℝ × List ℝ, x = y →
      V_multipole x.1 x.2.1 x.2.2.1 x.2.2.2 = V_multipole y.1 y.2.1 y.2.2.1 y.2.2.2) ∧
    (∀ x y : Vec3 × Vec3 × Vec3, x = y →
      V_pdipole x.1 x.2.1 x.2.2 = V_pdipole y.1 y.2.1 y.2.2) ∧
    (∀ x y : ℝ × ℝ × Vec3 × Option MFdata × Option ℝ, x = y →
      V_CT x.1 x.2.1 x.2.2.1 x.2.2.2.1 x.2.2.2.2 =
        V_CT y.1 y.2.1 y.2.2.1 y.2.2.2.1 y.2.2.2.2) ∧
    (∀ x y : MFdata, x = y → transfer_sym x = transfer_sym y) :=
  ⟨fun _ _ h => by rw [h], fun _ _ h => by rw [h],
   fun _ _ h => by rw [h], fun _ _ h => by rw [h]⟩

/-- Witness for C8 at concrete arguments. -/
theorem closed_forms_deterministic_witness :
    V_multipole molU molV [1] [1] = V_multipole molU molV [1] [1] ∧
    V_pdipole ((1:ℝ),(0:ℝ),(0:ℝ)) ((1:ℝ),(0:ℝ),(0:ℝ)) ((1:ℝ),(0:ℝ),(0:ℝ)) =
      V_pdipole ((1:ℝ),(0:ℝ),(0:ℝ)) ((1:ℝ),(0:ℝ),(0:ℝ)) ((1:ℝ),(0:ℝ),(0:ℝ)) ∧
    V_CT 1 1 ((1:ℝ),(0:ℝ),(0:ℝ)) (some mfW) (some 0.2) =
      V_CT 1 1 ((1:ℝ),(0:ℝ),(0:ℝ)) (some mfW) (some 0.2) ∧
    transfer_sym mfW = transfer_sym mfW :=
  ⟨closed_forms_deterministic.1 (molU, molV, [1], [1]) (molU, molV, [1], [1]) rfl,
   closed_forms_deterministic.2.1 (((1:ℝ),(0:ℝ),(0:ℝ)), ((1:ℝ),(0:ℝ),(0:ℝ)),
     ((1:ℝ),(0:ℝ),(0:ℝ))) (((1:ℝ),(0:ℝ),(0:ℝ)), ((1:ℝ),(0:ℝ),(0:ℝ)),
     ((1:ℝ),(0:ℝ),(0:ℝ))) rfl,
   closed_forms_deterministic.2.2.1 (1, 1, ((1:ℝ),(0:ℝ),(0:ℝ)), some mfW, some 0.2)
     (1, 1, ((1:ℝ),(0:ℝ),(0:ℝ)), some mfW, some 0.2) rfl,
   closed_forms_deterministic.2.2.2 mfW mfW rfl⟩

lemma sum_zipWith_getD {α β : Type} (f : α → β → ℝ) (dA : α) (dB : β) :
    ∀ (l1 : List α) (l2 : List β), l1.length = l2.length →
      (List.zipWith f l1 l2).sum =
        ∑ i : Fin l1.length, f (l1.getD i dA) (l2.getD i dB)
  | [], [], _ => by simp
  | [], _ :: _, h => by simp at h
  | _ :: _, [], h => by simp at h
  | a :: as, b :: bs, h => by
    have ih := sum_zipWith_getD f dA dB as bs (by simpa using h)
    simp only [List.zipWith_cons_cons, List.sum_cons, List.length_cons]
    rw [Fin.sum_univ_succ, ih]
    simp [List.getD_cons_zero, List.getD_cons_succ, Fin.val_succ]

/-- C2: under matching lengths and nonzero interatomic distances,
`V_multipole(molA, molB, chrgA, chrgB)` is the double sum over atoms `f`
of A and `g` of B of `chrgA[f]*chrgB[g] / |rA[f] - rB[g]|`. -/
theorem V_multipole_formula (molA molB : Mol) (chrgA chrgB : List ℝ)
    (hA : chrgA.length = molA.atom_coords.length)
    (hB : chrgB.length = molB.atom_coords.length)
    (hnz : ∀ (f : Fin chrgA.length) (g : Fin chrgB.length),
      norm3 (sub3 (molA.atom_coords.getD f ((0:ℝ),(0:ℝ),(0:ℝ)))
        (molB.atom_coords.getD g ((0:ℝ),(0:ℝ),(0:ℝ)))) ≠ 0) :
    V_multipole molA molB chrgA chrgB =
      ∑ f : Fin chrgA.length, ∑ g : Fin chrgB.length,
        chrgA.getD f 0 * chrgB.getD g 0 /
          norm3 (sub3 (molA.atom_coords.getD f ((0:ℝ),(0:ℝ),(0:ℝ)))
            (molB.atom_coords.getD g ((0:ℝ),(0:ℝ),(0:ℝ)))) := by
  simp only [V_multipole, np_sum2, np_outer, cdist, List.zipWith_map, List.map_zipWith]
  rw [sum_zipWith_getD _ 0 ((0:ℝ),(0:ℝ),(0:ℝ)) chrgA molA.atom_coords hA]
  apply Finset.sum_congr rfl
  intro i _
  rw [sum_zipWith_getD _ 0 ((0:ℝ),(0:ℝ),(0:ℝ)) chrgB molB.atom_coords hB]

/-- Witness for C2 with one atom per molecule at distance 1 and charges
2 and 3. -/
theorem V_multipole_formula_witness :
    (([(2:ℝ)]).length = molU.atom_coords.length) ∧
    (([(3:ℝ)]).length = molV.atom_coords.length) ∧
    (∀ (f : Fin ([(2:ℝ)]).length) (g : Fin ([(3:ℝ)]).length),
      norm3 (sub3 (molU.atom_coords.getD f ((0:ℝ),(0:ℝ),(0:ℝ)))
        (molV.atom_coords.getD g ((0:ℝ),(0:ℝ),(0:ℝ)))) ≠ 0) ∧
    V_multipole molU molV [(2:ℝ)] [(3:ℝ)] =
      ∑ f : Fin ([(2:ℝ)]).length, ∑ g : Fin ([(3:ℝ)]).length,
        ([(2:ℝ)]).getD f 0 * ([(3:ℝ)]).getD g 0 /
          norm3 (sub3 (molU.atom_coords.getD f ((0:ℝ),(0:ℝ),(0:ℝ)))
            (molV.atom_coords.getD g ((0:ℝ),(0:ℝ),(0:ℝ)))) := by
  have hnz : ∀ (f : Fin ([(2:ℝ)]).length) (g : Fin ([(3:ℝ)]).length),
      norm3 (sub3 (molU.atom_coords.getD f ((0:ℝ),(0:ℝ),(0:ℝ)))
        (molV.atom_coords.getD g ((0:ℝ),(0:ℝ),(0:ℝ)))) ≠ 0 := by
    intro f g
    fin_cases f
    fin_cases g
    simp only [molU, molV, List.getD_cons_zero, sub3, norm3, dot3]
    rw [show ((0:ℝ) - 1) * ((0:ℝ) - 1) + ((0:ℝ) - 0) * ((0:ℝ) - 0) +
        ((0:ℝ) - 0) * ((0:ℝ) - 0) = 1 by norm_num, Real.sqrt_one]
    norm_num
  exact ⟨rfl, rfl, hnz, V_multipole_formula molU molV [(2:ℝ)] [(3:ℝ)] rfl rfl hnz⟩

lemma coord_save_effects (a2s : Vec3 → String) (rts : List String → String)
    (cpath : String) (fN rN : Int) (xyz : List Vec3) (names : List String) :
    (coord_save a2s rts cpath fN rN xyz names).2 =
      [FileEffect.savetxt (cpath ++ toString rN ++ toString fN ++ ".csv"),
       FileEffect.openRead (cpath ++ toString rN ++ toString fN ++ ".csv")] :=
  rfl

/-- C7 counterexample: a concrete `Process_MD` call produces a non-empty
file-effect trace; it saves each monomer's coordinates to a CSV file via
`np.savetxt` and reads the files back, so the module does create
persistent entities outliving the call. -/
theorem Process_MD_persists_coordinates :
    effectsOf (Process_MD (fun _ => "") (fun _ => "") uC "1" "2" "/coord_files/MD_atoms") =
      [FileEffect.savetxt "/coord_files/MD_atoms50.csv",
       FileEffect.openRead "/coord_files/MD_atoms50.csv",
       FileEffect.savetxt "/coord_files/MD_atoms50.csv",
       FileEffect.openRead "/coord_files/MD_atoms50.csv"] ∧
    effectsOf (Process_MD (fun _ => "") (fun _ => "") uC "1" "2" "/coord_files/MD_atoms") ≠
      [] := by
  have h : effectsOf (Process_MD (fun _ => "") (fun _ => "") uC "1" "2"
      "/coord_files/MD_atoms") =
      [FileEffect.savetxt "/coord_files/MD_atoms50.csv",
       FileEffect.openRead "/coord_files/MD_atoms50.csv",
       FileEffect.savetxt "/coord_files/MD_atoms50.csv",
       FileEffect.openRead "/coord_files/MD_atoms50.csv"] := rfl
  exact ⟨h, by rw [h]; exact List.cons_ne_nil _ _⟩

/-- C7 (amended): every other routine is a pure formula, but each
successful `Process_MD` call does write persistent storage: its effect
trace is exactly two CSV coordinate-file writes (one per monomer, via its
inner `coord_save`), each followed by reading the file back. -/
theorem Process_MD_writes_two_csv_files (a2s : Vec3 → String)
    (rts : List String → String) (u : Universe) (sel_1 sel_2 cpath : String)
    (h : (Process_MD a2s rts u sel_1 sel_2 cpath).isSome) :
    ∃ pA pB, effectsOf (Process_MD a2s rts u sel_1 sel_2 cpath) =
      [FileEffect.savetxt pA, FileEffect.openRead pA,
       FileEffect.savetxt pB, FileEffect.openRead pB] := by
  simp only [Process_MD] at h ⊢
  rcases hA : (u.selectAtoms ("resid " ++ sel_1)).resids.head? with _ | resA
  · rw [hA] at h; simp at h
  rcases hB : (u.selectAtoms ("resid " ++ sel_2)).resids.head? with _ | resB
  · rw [hA, hB] at h; simp at h
  rcases hH1 : add_H u sel_1 (u.selectAtoms ("resid " ++ sel_1)).positions
      (u.selectAtoms ("resid " ++ sel_1)).names with _ | pA
  · rw [hA, hB, hH1] at h; simp at h
  rcases hH2 : add_H u sel_2 (u.selectAtoms ("resid " ++ sel_2)).positions
      (u.selectAtoms ("resid " ++ sel_2)).names with _ | pB
  · rw [hA, hB, hH1, hH2] at h; simp at h
  refine ⟨cpath ++ toString resA ++ toString u.trajectoryFrame ++ ".csv",
    cpath ++ toString resB ++ toString u.trajectoryFrame ++ ".csv", ?_⟩
  simp only [effectsOf, hA, hB, hH1, hH2, Option.map_some', Option.getD_some]
  rfl

/-- Witness for the amended C7 at the concrete universe `uC`. -/
theorem Process_MD_writes_two_csv_files_witness :
    (Process_MD (fun _ => "") (fun _ => "") uC "1" "2" "/coord_files/MD_atoms").isSome ∧
    ∃ pA pB,
      effectsOf (Process_MD (fun _ => "") (fun _ => "") uC "1" "2" "/coord_files/MD_atoms") =
        [FileEffect.savetxt pA, FileEffect.openRead pA,
         FileEffect.savetxt pB, FileEffect.openRead pB] :=
  ⟨rfl, Process_MD_writes_two_csv_files (fun _ => "") (fun _ => "") uC "1" "2"
    "/coord_files/MD_atoms" rfl⟩

end CouplingUtils
